import Mathlib

/-!
Verification of the input-simulation action-grammar parser and execution
engine (src/input-simulation.py), as a shallow embedding in Lean 4.

Modelling conventions:
* Python strings are Lean `String`; the helpers below mirror the Python
  string methods used by the source (`split`, `upper`, `lower`, `isdigit`,
  `startswith`) over ASCII data, working on the underlying `List Char`.
* Python floats are modelled as rationals; the numeric literals in the
  source (0.8, 0.1, ...) are exactly the corresponding rationals.
* Fallible Python code (raised exceptions) is modelled with `Except`.
  A `ValueError` caught by a parser `except` clause becomes
  `ParseErr.formatError item msg` (the source logs the offending item and
  exits with status 1); an exception that escapes the `except ValueError`
  clause (an `IndexError`) becomes `ParseErr.indexError item`
  (the process dies with a traceback, no log message naming the item).
* Side-effecting executor code (pyautogui / xdotool / time.sleep calls) is
  modelled as a trace of `Event`s together with a continue-flag; the flag
  is `false` when the Python process would have terminated (exit(1) or an
  uncaught exception), halting the remaining queue.
* External collaborators (cursor position, screen locator, file contents)
  are an `Env` of oracle functions, read at the moment of the
  corresponding call, as in the source.
* `os.path.abspath` / `os.path.expanduser` normalisation is modelled as
  the identity; `os.path.join` keeps an absolute second argument.
-/

/-- Decimal value of a digit list, as computed by Python int() on a digit
string (the parser only applies it to validated digit strings). -/
def natValL (l : List Char) : Nat :=
  l.foldl (fun a c => a * 10 + (c.toNat - 48)) 0

/-- Model of Python str.isdigit() for ASCII data: nonempty and all digits. -/
def pyIsDigit (s : String) : Bool :=
  !s.data.isEmpty && s.data.all (·.isDigit)

/-- Model of Python str.upper() for ASCII data. -/
def pyUpper (s : String) : String :=
  String.mk (s.data.map Char.toUpper)

/-- Model of Python str.lower() for ASCII data. -/
def pyLower (s : String) : String :=
  String.mk (s.data.map Char.toLower)

/-- Model of Python str.startswith(c) for a one-character argument. -/
def strStartsWithChar (c : Char) (s : String) : Bool :=
  match s.data with
  | [] => false
  | a :: _ => a == c

/-- Model of Python s[1:]. -/
def strDrop1 (s : String) : String :=
  String.mk (s.data.drop 1)

/-- Splits a character list at every occurrence of `sep`, keeping empty
pieces, as Python str.split(sep) does; the result is always nonempty. -/
def splitOnCharL (sep : Char) : List Char → List (List Char)
  | [] => [[]]
  | c :: rest =>
    let r := splitOnCharL sep rest
    if c = sep then [] :: r
    else
      match r with
      | [] => [[c]]
      | p :: ps => (c :: p) :: ps

/-- Characters before the first `sep`, and the remainder after it when
`sep` occurs. -/
def breakAtChar (sep : Char) : List Char → List Char × Option (List Char)
  | [] => ([], none)
  | c :: rest =>
    if c = sep then ([], some rest)
    else
      let (a, b) := breakAtChar sep rest
      (c :: a, b)

/-- Model of Python item.split(",", 1): the part before the first comma and,
when a comma occurs, the rest of the string. -/
def pySplitFirst (s : String) : String × Option String :=
  match breakAtChar ',' s.data with
  | (a, b) => (String.mk a, b.map String.mk)

/-- Model of Python item.split(","). -/
def pySplitComma (s : String) : List String :=
  (splitOnCharL ',' s.data).map String.mk

/-- Model of Python combo.split("+"). -/
def pySplitPlus (s : String) : List String :=
  (splitOnCharL '+' s.data).map String.mk

/-- Model of Python actions_str.split() (whitespace split, empty pieces
dropped), for strings whose whitespace consists of spaces. -/
def pySplitWs (s : String) : List String :=
  ((splitOnCharL ' ' s.data).filter (fun p => !p.isEmpty)).map String.mk

/-- Model of Python int() on a string: optional sign followed by digits;
anything else raises ValueError, modelled as `none`. (Leading/trailing
whitespace and underscore separators are not modelled.) -/
def pyParseInt? (s : String) : Option Int :=
  match s.data with
  | '+' :: rest =>
    if !rest.isEmpty && rest.all (·.isDigit) then some (natValL rest) else none
  | '-' :: rest =>
    if !rest.isEmpty && rest.all (·.isDigit) then some (-(natValL rest : Int)) else none
  | l =>
    if !l.isEmpty && l.all (·.isDigit) then some (natValL l) else none

/-- Value of an unsigned decimal string with an optional fractional part. -/
def natFloat? (l : List Char) : Option ℚ :=
  match breakAtChar '.' l with
  | (a, none) =>
    if !a.isEmpty && a.all (·.isDigit) then some (natValL a) else none
  | (a, some b) =>
    if (!a.isEmpty || !b.isEmpty) && a.all (·.isDigit) && b.all (·.isDigit)
    then some ((natValL a : ℚ) + (natValL b : ℚ) / (10 ^ b.length))
    else none

/-- Model of Python float() on a string, restricted to plain decimal
decimal form (exponents, inf/nan and surrounding whitespace are unmodelled;
no theorem below depends on those forms). `none` models ValueError. -/
def pyParseFloat? (s : String) : Option ℚ :=
  match s.data with
  | '+' :: rest => natFloat? rest
  | '-' :: rest => (natFloat? rest).map Neg.neg
  | l => natFloat? l

/-- Model of Python int() on a parser-validated signed coordinate string
(the executor only applies it to strings accepted by
validate_coordinate, where it cannot raise). -/
def pyIntVal (s : String) : Int :=
  match s.data with
  | '+' :: rest => (natValL rest : Int)
  | '-' :: rest => -(natValL rest : Int)
  | _ => (natValL s.data : Int)

/-- Model of os.path.join(directory, path) preceded by abspath/expanduser
(normalisation itself is modelled as the identity): an absolute `path`
stands alone, otherwise it is appended to the directory. -/
def joinPath (dir : Option String) (path : String) : String :=
  match dir with
  | none => path
  | some d => if strStartsWithChar '/' path then path else d ++ "/" ++ path

/-! ## Constants (src/input-simulation.py lines 47-136)

The Python enums MouseAction / KeyboardAction are str-valued enums whose
members compare equal to their string values; every comparison and list
membership test in the source is a string comparison, so the model uses
plain strings for action keywords. -/

def MIN_TYPING_INTERVAL : ℚ := 1/40
def DEFAULT_SLEEP_TIME : ℚ := 0
def DEFAULT_DURATION : ℚ := 0
def DEFAULT_DOUBLECLICK_INTERVAL : ℚ := 1/10
def DEFAULT_CONFIDENCE : ℚ := 4/5
def DEFAULT_GRAYSCALE : Bool := true
def DEFAULT_TYPING_INTERVAL : ℚ := 1/20
def DEFAULT_PRESS_INTERVAL : ℚ := 0

/-- MOUSE_ACTIONS_DICT (line 95): alias to canonical name. -/
def MOUSE_ACTIONS_DICT : List (String × String) :=
  [("L", "LEFT"), ("R", "RIGHT"), ("W", "MIDDLE"),
   ("LL", "DOUBLELEFT"), ("M", "MOVE"), ("S", "SLEEP")]

/-- MOUSE_ACTIONS_LIST (line 103): dict keys followed by dict values. -/
def MOUSE_ACTIONS_LIST : List String :=
  MOUSE_ACTIONS_DICT.map (·.1) ++ MOUSE_ACTIONS_DICT.map (·.2)

def MOUSE_ACTIONS_STR : String := String.intercalate ", " MOUSE_ACTIONS_LIST

/-- MOUSE_CLICK_ACTIONS_LIST (line 105): every mouse keyword except the
move and sleep forms. -/
def MOUSE_CLICK_ACTIONS_LIST : List String :=
  MOUSE_ACTIONS_LIST.filter (fun a => !(["M", "MOVE", "S", "SLEEP"].contains a))

def MOUSE_SLEEP_ACTIONS_LIST : List String := ["S", "SLEEP"]

/-- KEYBOARD_ACTIONS_LIST (line 108). -/
def KEYBOARD_ACTIONS_LIST : List String :=
  ["KEY", "K", "TYPE", "T", "TYPEFILE", "TF", "SLEEP", "S"]

def KEYBOARD_ACTIONS_STR : String := String.intercalate ", " KEYBOARD_ACTIONS_LIST

def KEYBOARD_SLEEP_ACTIONS_LIST : List String := ["S", "SLEEP"]
def KEYBOARD_KEY_ACTIONS_LIST : List String := ["K", "KEY"]
def KEYBOARD_TYPE_ACTIONS_LIST : List String := ["T", "TYPE"]
def KEYBOARD_TYPEFILE_ACTIONS_LIST : List String := ["TF", "TYPEFILE"]

/-- BTN_MAPPING (line 124): canonical click keyword to pyautogui button
constant; a keyword outside the mapping raises KeyError in Python,
modelled as `none` at the use site. -/
def btnMap (action : String) : Option String :=
  if action = "DOUBLELEFT" then some "left"
  else if action = "LEFT" then some "left"
  else if action = "RIGHT" then some "right"
  else if action = "MIDDLE" then some "middle"
  else none

/-! ## Data model of parsed actions

The Python parsers produce (action, args) pairs where args is a
heterogeneous tuple: () for a click on the current position, a 1-tuple
holding an image path or a sleep duration, or a 2-tuple of coordinates
(int when absolute, signed string when relative). -/

/-- Coordinate as stored by validate_coordinate (line 285): Python int for
an absolute field, the original signed string for a relative field. -/
inductive PyCoord
  | int (n : Int)
  | str (s : String)
  deriving DecidableEq, Repr

/-- Argument tuple of a parsed mouse action. -/
inductive MouseArgs
  | empty
  | image (path : String)
  | coords (x y : PyCoord)
  | sleep (seconds : ℚ)
  deriving DecidableEq, Repr

/-- Argument tuple of a parsed keyboard action. -/
inductive KeyArgs
  | sleep (seconds : ℚ)
  | key (keys : List String) (presses : Int)
  | text (s : String)
  | file (path : String)
  deriving DecidableEq, Repr

/-- One element of the combined list built by parse_input_actions
(line 438): a domain tag together with the sub-list produced by the
delegated single-domain parser. -/
inductive InputItem
  | mouse (acts : List (String × MouseArgs))
  | keyboard (acts : List (String × KeyArgs))
  deriving DecidableEq, Repr

/-- Parse failure. `formatError item msg` is a ValueError caught by the
except clause: the source logs "Invalid format for action {item}: {msg}"
and exits with status 1. `indexError item` is an IndexError escaping the
except ValueError clause: the process dies with a Python traceback and no
log message naming the item. -/
inductive ParseErr
  | formatError (item : String) (msg : String)
  | indexError (item : String)
  deriving DecidableEq, Repr

/-! ## Validators (lines 255-301) -/

/-- Dict lookup with default, as Python MOUSE_ACTIONS_DICT.get(k, dflt). -/
def dictGet (d : List (String × String)) (k dflt : String) : String :=
  match d.find? (fun p => p.1 == k) with
  | some p => p.2
  | none => dflt

/-- validate_mouse_action (line 255): uppercase, check membership, map
aliases to canonical names. -/
def validate_mouse_action (action : String) : Except String String :=
  let a := pyUpper action
  if a ∈ MOUSE_ACTIONS_LIST then .ok (dictGet MOUSE_ACTIONS_DICT a a)
  else .error ("Invalid action " ++ action ++ ". Use " ++ MOUSE_ACTIONS_STR ++ ".")

/-- validate_file_path (line 271) against a filesystem oracle `fs`
(os.path.isfile). The returned path is the joined path. -/
def validate_file_path (fs : String → Bool) (dir : Option String) (path : String) :
    Except String String :=
  let p := joinPath dir path
  if fs p then .ok p else .error ("File " ++ p ++ " does not exist.")

/-- validate_coordinate (line 285): bare digits become a Python int,
a signed digit string is kept verbatim, anything else raises ValueError. -/
def validate_coordinate (coord : String) : Except String PyCoord :=
  if pyIsDigit coord then .ok (.int (natValL coord.data))
  else if (strStartsWithChar '+' coord || strStartsWithChar '-' coord)
      && pyIsDigit (strDrop1 coord) then .ok (.str coord)
  else .error ("Invalid coordinate " ++ coord ++ ". It must be an integer (absolute or relative).")

/-- check_coordinate_format (line 299). -/
def check_coordinate_format (coord : String) : Bool :=
  pyIsDigit coord ||
    ((strStartsWithChar '+' coord || strStartsWithChar '-' coord)
      && pyIsDigit (strDrop1 coord))

/-! ## Parsers (lines 332-464) -/

/-- Body of one iteration of the parse_mouse_actions loop (lines 344-381),
up to the except clause: any `.error` here is a ValueError that the
enclosing handler logs together with the offending token. `fs` is the
os.path.isfile oracle, `dir` the optional --images-path. -/
def parseMouseItemCore (fs : String → Bool) (dir : Option String) (item : String) :
    Except String (String × MouseArgs) :=
  let parts := pySplitComma item
  if parts.length = 1 then
    -- one field: click keyword (case-sensitive membership test, line 352)
    -- or an image path to move to
    let p0 := parts.headD ""
    if p0 ∈ MOUSE_CLICK_ACTIONS_LIST then
      (validate_mouse_action p0).map (fun a => (a, MouseArgs.empty))
    else
      (validate_file_path fs dir p0).map (fun p => ("MOVE", MouseArgs.image p))
  else if parts.length = 2 then
    let p0 := parts.headD ""
    let p1 := parts.getD 1 ""
    if pyUpper p0 ∈ MOUSE_SLEEP_ACTIONS_LIST then
      match pyParseFloat? p1 with
      | none => .error ("could not convert string to float: " ++ p1)
      | some seconds =>
        if seconds < 0 then .error ("Sleep time cannot be negative.")
        else .ok ("SLEEP", MouseArgs.sleep seconds)
    else if check_coordinate_format p0 then do
      let x ← validate_coordinate p0
      let y ← validate_coordinate p1
      .ok ("MOVE", MouseArgs.coords x y)
    else do
      let a ← validate_mouse_action p0
      let p ← validate_file_path fs dir p1
      .ok (a, MouseArgs.image p)
  else if parts.length = 3 then do
    let a ← validate_mouse_action (parts.headD "")
    let x ← validate_coordinate (parts.getD 1 "")
    let y ← validate_coordinate (parts.getD 2 "")
    .ok (a, MouseArgs.coords x y)
  else
    .error ("The action has more than 3 parts separated by commas.")

/-- Effectful map over a list, stopping at the first failure: the Python
loop appends parsed items and exits the process on the first error. -/
def exceptMapM (f : α → Except ε β) : List α → Except ε (List β)
  | [] => .ok []
  | a :: l => do
    let b ← f a
    let bs ← exceptMapM f l
    .ok (b :: bs)

/-- parse_mouse_actions (line 334): whitespace-split the string, parse each
token, abort on the first failure (logged with the token, exit(1)). -/
def parse_mouse_actions (fs : String → Bool) (dir : Option String)
    (actions_str : String) : Except ParseErr (List (String × MouseArgs)) :=
  exceptMapM
    (fun item => (parseMouseItemCore fs dir item).mapError (ParseErr.formatError item))
    (pySplitWs actions_str)

/-- Body of one iteration of the parse_keyboard_actions loop after the
split on the first comma (lines 410-428). `action` is res[0], `args` is
res[1]. `fs` is the os.path.isfile oracle, `dir` the optional
--files-path. -/
def parseKbCore (fs : String → Bool) (dir : Option String) (action args : String) :
    Except String (String × KeyArgs) :=
  if pyUpper action ∈ KEYBOARD_SLEEP_ACTIONS_LIST then
    match pyParseFloat? args with
    | none => .error ("could not convert string to float: " ++ args)
    | some seconds =>
      if seconds < 0 then .error ("Sleep time cannot be negative.")
      else .ok ("SLEEP", KeyArgs.sleep seconds)
  else if pyUpper action ∈ KEYBOARD_KEY_ACTIONS_LIST then
    let argsList := pySplitComma args
    let keys := pySplitPlus (pyLower (argsList.headD ""))
    if argsList.length = 1 then .ok ("KEY", KeyArgs.key keys 1)
    else
      match pyParseInt? (argsList.getD 1 "") with
      | none => .error ("invalid literal for int() with base 10: " ++ argsList.getD 1 "")
      | some presses => .ok ("KEY", KeyArgs.key keys presses)
  else if pyUpper action ∈ KEYBOARD_TYPE_ACTIONS_LIST then
    .ok ("TYPE", KeyArgs.text args)
  else if pyUpper action ∈ KEYBOARD_TYPEFILE_ACTIONS_LIST then
    (validate_file_path fs dir args).map (fun p => ("TYPEFILE", KeyArgs.file p))
  else
    .error ("Invalid action " ++ action ++ ". Use " ++ KEYBOARD_ACTIONS_STR ++ ".")

/-- One iteration of the parse_keyboard_actions loop (lines 403-434).
For a token with no comma, res[1] raises an IndexError that the
except ValueError clause does not catch (line 408): the process dies with
a traceback instead of the logged format error. -/
def parseKeyboardItem (fs : String → Bool) (dir : Option String) (item : String) :
    Except ParseErr (String × KeyArgs) :=
  match pySplitFirst item with
  | (_, none) => .error (ParseErr.indexError item)
  | (action, some args) =>
    (parseKbCore fs dir action args).mapError (ParseErr.formatError item)

/-- One iteration of the parse_input_actions loop (lines 449-463):
classify the token by its field before the first comma (mouse keywords
first, line 453), delegate to the single-domain parser. The keyboard
parser is called with from_input=True, so the whole token is one action;
the mouse parser has no such parameter and re-splits the token on
whitespace. -/
def parseInputItem (imgFs fileFs : String → Bool)
    (imgDir fileDir : Option String) (item : String) :
    Except ParseErr InputItem :=
  let item_split := pySplitFirst item
  if item_split.2 = none ∨ pyUpper item_split.1 ∈ MOUSE_ACTIONS_LIST then
    (parse_mouse_actions imgFs imgDir item).map InputItem.mouse
  else if pyUpper item_split.1 ∈ KEYBOARD_ACTIONS_LIST then
    (parseKeyboardItem fileFs fileDir item).map (fun a => InputItem.keyboard [a])
  else
    .error (ParseErr.formatError item ("Unknow action. Use mouse or keyboard actions."))

/-- parse_input_actions (line 438) applied to the shlex token list
(quote-aware shell splitting is an external collaborator and is not
modelled; each element of `tokens` is one shlex token). -/
def parse_input_actions (imgFs fileFs : String → Bool)
    (imgDir fileDir : Option String) (tokens : List String) :
    Except ParseErr (List InputItem) :=
  exceptMapM (parseInputItem imgFs fileFs imgDir fileDir) tokens

/-! ## Executors (lines 470-607)

Each executor is modelled as a function from the parsed action list to the
trace of collaborator calls it performs, together with a continue-flag
that is false when the Python process would have terminated early. -/

/-- One observable side effect of an executor. `globalSleep` is the
inter-action time.sleep(sleep_time) at the bottom of the loop;
`sleepLiteral` is the time.sleep of a literal Sleep action;
`pressSleep` is the time.sleep(press_interval) inside the chord loop. -/
inductive Event
  | sleepLiteral (seconds : ℚ)
  | globalSleep (seconds : ℚ)
  | pressSleep (seconds : ℚ)
  | moveTo (x y : Int)
  | click (btn : String) (x y : Int) (clicks : Nat) (interval : ℚ)
  | locate (path : String) (confidence : ℚ) (grayscale : Bool)
  | press (key : String) (presses : Int) (interval : ℚ)
  | hotkey (keys : List String)
  | typeText (text : String) (interval : ℚ)
  deriving DecidableEq, Repr

/-- External collaborators: current cursor position (pyautogui.position),
screen locator (pyautogui.locateCenterOnScreen, `none` = not found),
file contents (`none` = OSError on read). -/
structure Env where
  cursor : Int × Int
  locate : String → Option (Int × Int)
  fileContent : String → Option String

/-- Keyword arguments of mouse_cmd (line 470). -/
structure MouseConfig where
  sleep_time : ℚ
  duration : ℚ
  doubleclick_interval : ℚ
  confidence : ℚ
  grayscale : Bool

/-- Keyword arguments of keyboard_cmd (line 526). -/
structure KeyboardConfig where
  sleep_time : ℚ
  typing_interval : ℚ
  press_interval : ℚ

/-- Keyword arguments of input_cmd (line 581). -/
structure InputConfig where
  sleep_time : ℚ
  duration : ℚ
  doubleclick_interval : ℚ
  confidence : ℚ
  grayscale : Bool
  typing_interval : ℚ
  press_interval : ℚ

/-- Resolution of one coordinate field at execution time (lines 504-505):
a Python int is used as is, a signed string is added to the cursor
position queried at that instant. -/
def resolveAxis (cur : Int) : PyCoord → Int
  | .int n => n
  | .str s => cur + pyIntVal s

/-- Move/click part of the mouse loop body (lines 507-519) for an already
resolved point. A keyword outside BTN_MAPPING raises KeyError after the
optional move (unreachable from the parser), modelled as a halt. -/
def clickMoveEvents (cfg : MouseConfig) (tag : String) (x y : Int) :
    List Event × Bool :=
  let move := if 0 < cfg.duration ∨ tag = "MOVE" then [Event.moveTo x y] else []
  if tag = "MOVE" then (move, true)
  else
    match btnMap tag with
    | none => (move, false)
    | some btn =>
      let single := tag ≠ "DOUBLELEFT"
      (move ++ [Event.click btn x y (if single then 1 else 2)
        (if single then 0 else cfg.doubleclick_interval)], true)

/-- Body of one iteration of the mouse_cmd loop (lines 484-519), without
the trailing inter-action sleep. Argument tuples that the parser cannot
produce for the given tag (causing a TypeError or IndexError in Python)
halt with no events. -/
def mouseActionEvents (cfg : MouseConfig) (env : Env) (a : String × MouseArgs) :
    List Event × Bool :=
  if a.1 = "SLEEP" then
    match a.2 with
    | .sleep seconds => (if 0 < seconds then [Event.sleepLiteral seconds] else [], true)
    | _ => ([], false)
  else
    match a.2 with
    | .empty => clickMoveEvents cfg a.1 env.cursor.1 env.cursor.2
    | .image p =>
      -- locateCenterOnScreen with the configured confidence and grayscale;
      -- `none` is fatal (lines 496-498)
      match env.locate p with
      | none => ([Event.locate p cfg.confidence cfg.grayscale], false)
      | some (x, y) =>
        let (evs, c) := clickMoveEvents cfg a.1 x y
        (Event.locate p cfg.confidence cfg.grayscale :: evs, c)
    | .coords cx cy =>
      clickMoveEvents cfg a.1 (resolveAxis env.cursor.1 cx) (resolveAxis env.cursor.2 cy)
    | .sleep _ => ([], false)

/-- The trailing sleep of the loop (lines 521-523 / 576-578): only when
the configured interval is positive and the action is not the last of the
sequence of length `n`. -/
def globalTail (sleep_time : ℚ) (n i : Nat) : List Event :=
  if 0 < sleep_time ∧ i < n - 1 then [Event.globalSleep sleep_time] else []

/-- One full iteration of the mouse_cmd loop at index `i` of a sequence of
length `n`: the action body, then (in the non-sleep branch only, and only
when the body completed) the inter-action sleep. -/
def mouseStep (cfg : MouseConfig) (env : Env) (n i : Nat)
    (a : String × MouseArgs) : List Event × Bool :=
  match mouseActionEvents cfg env a with
  | (evs, false) => (evs, false)
  | (evs, true) =>
    if a.1 = "SLEEP" then (evs, true)
    else (evs ++ globalTail cfg.sleep_time n i, true)

/-- Chord branch of the KEY action (lines 553-556): the full chord is
issued presses times and time.sleep(press_interval) runs after every
hotkey call when the interval is positive. -/
def chordEvents (press_interval : ℚ) (keys : List String) (presses : Int) :
    List Event :=
  (List.replicate presses.toNat
    ([Event.hotkey keys] ++
      if 0 < press_interval then [Event.pressSleep press_interval] else [])).flatten

/-- Body of one iteration of the keyboard_cmd loop (lines 538-574),
without the trailing inter-action sleep. The unknown-action branch
(line 572) and argument tuples the parser cannot produce halt with no
events; a TYPEFILE read failure (line 569) is fatal. -/
def keyboardActionEvents (cfg : KeyboardConfig) (env : Env)
    (a : String × KeyArgs) : List Event × Bool :=
  if a.1 = "SLEEP" then
    match a.2 with
    | .sleep seconds => (if 0 < seconds then [Event.sleepLiteral seconds] else [], true)
    | _ => ([], false)
  else if a.1 = "KEY" then
    match a.2 with
    | .key keys presses =>
      if keys.length = 1 then
        ([Event.press (keys.headD "") presses cfg.press_interval], true)
      else (chordEvents cfg.press_interval keys presses, true)
    | _ => ([], false)
  else if a.1 = "TYPE" then
    match a.2 with
    | .text s => ([Event.typeText s cfg.typing_interval], true)
    | _ => ([], false)
  else if a.1 = "TYPEFILE" then
    match a.2 with
    | .file p =>
      match env.fileContent p with
      | some content => ([Event.typeText content cfg.typing_interval], true)
      | none => ([], false)
    | _ => ([], false)
  else ([], false)

/-- One full iteration of the keyboard_cmd loop at index `i` of a sequence
of length `n`. -/
def keyboardStep (cfg : KeyboardConfig) (env : Env) (n i : Nat)
    (a : String × KeyArgs) : List Event × Bool :=
  match keyboardActionEvents cfg env a with
  | (evs, false) => (evs, false)
  | (evs, true) =>
    if a.1 = "SLEEP" then (evs, true)
    else (evs ++ globalTail cfg.sleep_time n i, true)

/-- Runs loop iterations from index `i` on, halting on the first iteration
whose continue-flag is false. -/
def runSteps (step : Nat → α → List Event × Bool) : Nat → List α → List Event × Bool
  | _, [] => ([], true)
  | i, a :: rest =>
    match step i a with
    | (evs, false) => (evs, false)
    | (evs, true) =>
      let (more, c) := runSteps step (i + 1) rest
      (evs ++ more, c)

/-- mouse_cmd (line 470): the full loop over the parsed list. -/
def mouseRun (cfg : MouseConfig) (env : Env)
    (actions : List (String × MouseArgs)) : List Event × Bool :=
  runSteps (mouseStep cfg env actions.length) 0 actions

/-- keyboard_cmd (line 526): the full loop over the parsed list. -/
def keyboardRun (cfg : KeyboardConfig) (env : Env)
    (actions : List (String × KeyArgs)) : List Event × Bool :=
  runSteps (keyboardStep cfg env actions.length) 0 actions

/-- Arguments of the nested mouse_cmd call in input_cmd (line 597): only
actions, sleep_time, duration and doubleclick_interval are passed, so
confidence and grayscale take their defaults regardless of the values
input_cmd itself received. -/
def mouseConfigOfInput (cfg : InputConfig) : MouseConfig :=
  ⟨cfg.sleep_time, cfg.duration, cfg.doubleclick_interval,
    DEFAULT_CONFIDENCE, DEFAULT_GRAYSCALE⟩

/-- Arguments of the nested keyboard_cmd call in input_cmd (line 599). -/
def keyboardConfigOfInput (cfg : InputConfig) : KeyboardConfig :=
  ⟨cfg.sleep_time, cfg.typing_interval, cfg.press_interval⟩

/-- Tag of the first action of the sub-list: action[0][0] of line 604.
On an empty sub-list Python raises IndexError (`none` here). -/
def inputHeadTag : InputItem → Option String
  | .mouse acts => acts.head?.map (·.1)
  | .keyboard acts => acts.head?.map (·.1)

/-- Number of actions in the delegated sub-list. -/
def inputSubLength : InputItem → Nat
  | .mouse acts => acts.length
  | .keyboard acts => acts.length

/-- One iteration of the input_cmd loop (lines 595-607) at index `i` of a
combined sequence of length `n`: dispatch the sub-list to the nested
executor, then, unless the sub-list starts with a sleep action, the
inter-action sleep. An empty sub-list makes action[0] raise IndexError
after the (vacuous) nested call. -/
def inputStep (cfg : InputConfig) (env : Env) (n i : Nat)
    (item : InputItem) : List Event × Bool :=
  let sub :=
    match item with
    | .mouse acts => mouseRun (mouseConfigOfInput cfg) env acts
    | .keyboard acts => keyboardRun (keyboardConfigOfInput cfg) env acts
  match sub with
  | (evs, false) => (evs, false)
  | (evs, true) =>
    match inputHeadTag item with
    | none => (evs, false)
    | some tag =>
      let sleepList :=
        match item with
        | .mouse _ => MOUSE_SLEEP_ACTIONS_LIST
        | .keyboard _ => KEYBOARD_SLEEP_ACTIONS_LIST
      if tag ∉ sleepList ∧ 0 < cfg.sleep_time ∧ i < n - 1 then
        (evs ++ [Event.globalSleep cfg.sleep_time], true)
      else (evs, true)

/-- input_cmd (line 581): the full loop over the combined list. -/
def inputRun (cfg : InputConfig) (env : Env) (actions : List InputItem) :
    List Event × Bool :=
  runSteps (inputStep cfg env actions.length) 0 actions

/-! ## Theorems -/

/-- Events that are the inter-action global sleep. -/
def isGlobalSleep : Event → Bool
  | .globalSleep _ => true
  | _ => false

/-- No inter-action global sleep occurs in the trace. -/
def noGlobalSleep (evs : List Event) : Bool :=
  evs.all (fun e => !isGlobalSleep e)

theorem noGlobalSleep_append (l r : List Event) :
    noGlobalSleep (l ++ r) = (noGlobalSleep l && noGlobalSleep r) := by
  simp [noGlobalSleep]

theorem noGlobalSleep_clickMoveEvents (cfg : MouseConfig) (tag : String)
    (x y : Int) : noGlobalSleep (clickMoveEvents cfg tag x y).1 = true := by
  simp only [clickMoveEvents]
  cases hb : btnMap tag <;> simp only [hb] <;>
    (repeat' split) <;> simp [noGlobalSleep, isGlobalSleep]

theorem noGlobalSleep_mouseActionEvents (cfg : MouseConfig) (env : Env)
    (a : String × MouseArgs) :
    noGlobalSleep (mouseActionEvents cfg env a).1 = true := by
  unfold mouseActionEvents
  split
  · cases a.2 <;> (repeat' split) <;> simp [noGlobalSleep, isGlobalSleep]
  · cases h : a.2 with
    | empty => simpa using noGlobalSleep_clickMoveEvents cfg a.1 env.cursor.1 env.cursor.2
    | image p =>
      cases hl : env.locate p with
      | none => simp [hl, noGlobalSleep, isGlobalSleep]
      | some xy =>
        cases xy with
        | mk x y =>
          have h2 := noGlobalSleep_clickMoveEvents cfg a.1 x y
          simp [hl, noGlobalSleep, isGlobalSleep] at h2 ⊢
          exact fun e he => h2 e he
    | coords cx cy =>
      simpa using noGlobalSleep_clickMoveEvents cfg a.1
        (resolveAxis env.cursor.1 cx) (resolveAxis env.cursor.2 cy)
    | sleep s => simp [noGlobalSleep]

theorem globalTail_last (st : ℚ) (n i : Nat) (h : i = n - 1) :
    globalTail st n i = [] := by
  subst h
  simp [globalTail]

theorem noGlobalSleep_mouseStep_last (cfg : MouseConfig) (env : Env)
    (n i : Nat) (a : String × MouseArgs) (h : i = n - 1) :
    noGlobalSleep (mouseStep cfg env n i a).1 = true := by
  unfold mouseStep
  have hb := noGlobalSleep_mouseActionEvents cfg env a
  split
  · next heq => rw [heq] at hb; exact hb
  · next heq =>
    rw [heq] at hb
    split
    · exact hb
    · rw [globalTail_last cfg.sleep_time n i h]
      simpa using hb

theorem noGlobalSleep_chordEvents (pi : ℚ) (keys : List String) (presses : Int) :
    noGlobalSleep (chordEvents pi keys presses) = true := by
  unfold chordEvents noGlobalSleep
  rw [List.all_eq_true]
  intro e he
  rw [List.mem_flatten] at he
  obtain ⟨l, hl, hel⟩ := he
  rw [List.mem_replicate] at hl
  rw [hl.2] at hel
  rcases List.mem_append.mp hel with h | h
  · simp at h
    simp [h, isGlobalSleep]
  · by_cases hpi : 0 < pi <;> simp [hpi] at h
    simp [h, isGlobalSleep]

theorem noGlobalSleep_keyboardActionEvents (cfg : KeyboardConfig) (env : Env)
    (a : String × KeyArgs) :
    noGlobalSleep (keyboardActionEvents cfg env a).1 = true := by
  obtain ⟨t, args⟩ := a
  unfold keyboardActionEvents
  cases args <;> (repeat' split) <;>
    first
      | (simp [noGlobalSleep, isGlobalSleep]; done)
      | exact noGlobalSleep_chordEvents cfg.press_interval _ _

theorem noGlobalSleep_keyboardStep_last (cfg : KeyboardConfig) (env : Env)
    (n i : Nat) (a : String × KeyArgs) (h : i = n - 1) :
    noGlobalSleep (keyboardStep cfg env n i a).1 = true := by
  unfold keyboardStep
  have hb := noGlobalSleep_keyboardActionEvents cfg env a
  split
  · next heq => rw [heq] at hb; exact hb
  · next heq =>
    rw [heq] at hb
    split
    · exact hb
    · rw [globalTail_last cfg.sleep_time n i h]
      simpa using hb

theorem noGlobalSleep_runSteps_single (step : Nat → α → List Event × Bool)
    (a : α) (h : noGlobalSleep (step 0 a).1 = true) :
    noGlobalSleep (runSteps step 0 [a]).1 = true := by
  unfold runSteps
  split
  · next heq => rw [heq] at h; exact h
  · next heq =>
    rw [heq] at h
    simp [runSteps, noGlobalSleep] at h ⊢
    exact h

theorem noGlobalSleep_inputStep_last (cfg : InputConfig) (env : Env)
    (n i : Nat) (item : InputItem) (hi : i = n - 1)
    (hone : inputSubLength item = 1) :
    noGlobalSleep (inputStep cfg env n i item).1 = true := by
  have hlt : ¬ i < n - 1 := by omega
  cases item with
  | mouse acts =>
    match acts, hone with
    | [a], _ =>
      have hsub : noGlobalSleep (mouseRun (mouseConfigOfInput cfg) env [a]).1 = true := by
        have h1 : noGlobalSleep (mouseStep (mouseConfigOfInput cfg) env 1 0 a).1 = true :=
          noGlobalSleep_mouseStep_last _ env 1 0 a rfl
        simpa [mouseRun] using
          noGlobalSleep_runSteps_single (mouseStep (mouseConfigOfInput cfg) env 1) a h1
      simp only [inputStep]
      cases hs : mouseRun (mouseConfigOfInput cfg) env [a] with
      | mk evs c =>
        rw [hs] at hsub
        cases c with
        | false => simpa using hsub
        | true =>
          simp only [inputHeadTag, List.head?, Option.map, hlt, and_false, if_false]
          simpa using hsub
  | keyboard acts =>
    match acts, hone with
    | [a], _ =>
      have hsub : noGlobalSleep (keyboardRun (keyboardConfigOfInput cfg) env [a]).1 = true := by
        have h1 : noGlobalSleep (keyboardStep (keyboardConfigOfInput cfg) env 1 0 a).1 = true :=
          noGlobalSleep_keyboardStep_last _ env 1 0 a rfl
        simpa [keyboardRun] using
          noGlobalSleep_runSteps_single (keyboardStep (keyboardConfigOfInput cfg) env 1) a h1
      simp only [inputStep]
      cases hs : keyboardRun (keyboardConfigOfInput cfg) env [a] with
      | mk evs c =>
        rw [hs] at hsub
        cases c with
        | false => simpa using hsub
        | true =>
          simp only [inputHeadTag, List.head?, Option.map, hlt, and_false, if_false]
          simpa using hsub

/-- Claim C2: For every executed action sequence of length at least 2 (mouse,
keyboard, or combined input), the iteration at the final index issues no
inter-action global sleep regardless of the configured interval, and a
step that is a literal Sleep action produces exactly its own sleep (its
duration when positive, nothing otherwise) in place of — never in
addition to — the configured global inter-action sleep, at every index of
a sequence of any length. -/
theorem sequence_trailing_sleep_discipline
    (cfgM : MouseConfig) (cfgK : KeyboardConfig) (cfgI : InputConfig) (env : Env)
    (aM : String × MouseArgs) (aK : String × KeyArgs) (item : InputItem)
    (n i nI iI m j mI jI : Nat) (s : ℚ)
    (hn : 2 ≤ n) (hi : i = n - 1)
    (hnI : 2 ≤ nI) (hiI : iI = nI - 1)
    (hone : inputSubLength item = 1) :
    noGlobalSleep (mouseStep cfgM env n i aM).1 = true
  ∧ noGlobalSleep (keyboardStep cfgK env n i aK).1 = true
  ∧ noGlobalSleep (inputStep cfgI env nI iI item).1 = true
  ∧ (mouseStep cfgM env m j ("SLEEP", MouseArgs.sleep s)).1
      = (if 0 < s then [Event.sleepLiteral s] else [])
  ∧ (keyboardStep cfgK env m j ("SLEEP", KeyArgs.sleep s)).1
      = (if 0 < s then [Event.sleepLiteral s] else [])
  ∧ (inputStep cfgI env mI jI (InputItem.mouse [("SLEEP", MouseArgs.sleep s)])).1
      = (if 0 < s then [Event.sleepLiteral s] else []) := by
  refine ⟨noGlobalSleep_mouseStep_last cfgM env n i aM hi,
    noGlobalSleep_keyboardStep_last cfgK env n i aK hi,
    noGlobalSleep_inputStep_last cfgI env nI iI item hiI hone, ?_, ?_, ?_⟩
  · by_cases hs : 0 < s <;> simp [mouseStep, mouseActionEvents, hs]
  · by_cases hs : 0 < s <;> simp [keyboardStep, keyboardActionEvents, hs]
  · by_cases hs : 0 < s <;>
      simp [inputStep, mouseRun, runSteps, mouseStep, mouseActionEvents,
        inputHeadTag, MOUSE_SLEEP_ACTIONS_LIST, hs]

/-- Witness for sequence_trailing_sleep_discipline at concrete inputs:
sequences of length 2, the final index 1, a sleep of 2 seconds at index 0
of a sequence of length 3, and configurations whose global sleep is 1. -/
theorem sequence_trailing_sleep_discipline_witness :
    noGlobalSleep (mouseStep ⟨1, 0, 1/10, 4/5, true⟩
      ⟨(0, 0), fun _ => none, fun _ => none⟩ 2 1 ("LEFT", MouseArgs.empty)).1 = true
  ∧ noGlobalSleep (keyboardStep ⟨1, 1/20, 0⟩
      ⟨(0, 0), fun _ => none, fun _ => none⟩ 2 1 ("TYPE", KeyArgs.text "hi")).1 = true
  ∧ noGlobalSleep (inputStep ⟨1, 0, 1/10, 4/5, true, 1/20, 0⟩
      ⟨(0, 0), fun _ => none, fun _ => none⟩ 2 1
      (InputItem.mouse [("LEFT", MouseArgs.empty)])).1 = true
  ∧ (mouseStep ⟨1, 0, 1/10, 4/5, true⟩
      ⟨(0, 0), fun _ => none, fun _ => none⟩ 3 0 ("SLEEP", MouseArgs.sleep 2)).1
      = (if 0 < (2 : ℚ) then [Event.sleepLiteral 2] else [])
  ∧ (keyboardStep ⟨1, 1/20, 0⟩
      ⟨(0, 0), fun _ => none, fun _ => none⟩ 3 0 ("SLEEP", KeyArgs.sleep 2)).1
      = (if 0 < (2 : ℚ) then [Event.sleepLiteral 2] else [])
  ∧ (inputStep ⟨1, 0, 1/10, 4/5, true, 1/20, 0⟩
      ⟨(0, 0), fun _ => none, fun _ => none⟩ 3 0
      (InputItem.mouse [("SLEEP", MouseArgs.sleep 2)])).1
      = (if 0 < (2 : ℚ) then [Event.sleepLiteral 2] else []) :=
  sequence_trailing_sleep_discipline
    ⟨1, 0, 1/10, 4/5, true⟩ ⟨1, 1/20, 0⟩ ⟨1, 0, 1/10, 4/5, true, 1/20, 0⟩
    ⟨(0, 0), fun _ => none, fun _ => none⟩
    ("LEFT", MouseArgs.empty) ("TYPE", KeyArgs.text "hi")
    (InputItem.mouse [("LEFT", MouseArgs.empty)])
    2 1 2 1 3 0 3 0 2
    (by decide) (by decide) (by decide) (by decide) (by decide)

theorem strMk_data (s : String) : String.mk s.data = s := rfl

theorem validate_coordinate_digits (s : String) (hs : pyIsDigit s = true) :
    validate_coordinate s = .ok (PyCoord.int (natValL s.data)) := by
  simp [validate_coordinate, hs]

theorem validate_coordinate_signed (c : Char) (d : String)
    (hc : c = '+' ∨ c = '-') (hd : pyIsDigit d = true) :
    validate_coordinate (String.mk (c :: d.data))
      = .ok (PyCoord.str (String.mk (c :: d.data))) := by
  have hdrop : strDrop1 (String.mk (c :: d.data)) = d := rfl
  have hne : pyIsDigit (String.mk (c :: d.data)) = false := by
    rcases hc with h | h <;> subst h <;>
      simp [pyIsDigit, List.all_cons,
        show ('+' : Char).isDigit = false from rfl,
        show ('-' : Char).isDigit = false from rfl]
  have hstart : (strStartsWithChar '+' (String.mk (c :: d.data))
      || strStartsWithChar '-' (String.mk (c :: d.data))) = true := by
    rcases hc with h | h <;> subst h <;> simp [strStartsWithChar]
  simp [validate_coordinate, hne, hstart, hdrop, hd]

theorem pyIntVal_signed (c : Char) (d : String) (hc : c = '+' ∨ c = '-') :
    pyIntVal (String.mk (c :: d.data))
      = (if c = '+' then (natValL d.data : Int) else -(natValL d.data : Int)) := by
  rcases hc with h | h <;> subst h <;> simp [pyIntVal]

/-- Claim C3: For every mouse coordinate field: a bare digit string parses to an
absolute coordinate holding its decimal value, and the executor uses that
value as is; a field written as a sign character followed by digits
parses to a relative coordinate kept verbatim, and its resolved value at
execution time is the cursor position queried at that instant plus the
signed delta, per axis independently. -/
theorem coordinate_parse_and_resolution
    (s d : String) (c : Char) (cur : Int)
    (hs : pyIsDigit s = true) (hd : pyIsDigit d = true)
    (hc : c = '+' ∨ c = '-') :
    validate_coordinate s = .ok (PyCoord.int (natValL s.data))
  ∧ resolveAxis cur (PyCoord.int (natValL s.data)) = (natValL s.data : Int)
  ∧ validate_coordinate (String.mk (c :: d.data))
      = .ok (PyCoord.str (String.mk (c :: d.data)))
  ∧ resolveAxis cur (PyCoord.str (String.mk (c :: d.data)))
      = cur + (if c = '+' then (natValL d.data : Int) else -(natValL d.data : Int)) := by
  refine ⟨validate_coordinate_digits s hs, rfl,
    validate_coordinate_signed c d hc hd, ?_⟩
  simp [resolveAxis, pyIntVal_signed c d hc]

/-- Witness for coordinate_parse_and_resolution: the token fields 100 and
-30 with the cursor at 7. -/
theorem coordinate_parse_and_resolution_witness :
    validate_coordinate "100" = .ok (PyCoord.int (natValL "100".data))
  ∧ resolveAxis 7 (PyCoord.int (natValL "100".data)) = (natValL "100".data : Int)
  ∧ validate_coordinate (String.mk ('-' :: "30".data))
      = .ok (PyCoord.str (String.mk ('-' :: "30".data)))
  ∧ resolveAxis 7 (PyCoord.str (String.mk ('-' :: "30".data)))
      = 7 + (if '-' = '+' then (natValL "30".data : Int) else -(natValL "30".data : Int)) :=
  coordinate_parse_and_resolution "100" "30" '-' 7 (by decide) (by decide) (Or.inr rfl)

/-- Claim C1: Evaluation of the input command executor at a failing input: with
confidence 0 and grayscale false configured on the invocation, an
image-target mouse action under input queries the screen locator with the
defaults DEFAULT_CONFIDENCE = 4/5 and DEFAULT_GRAYSCALE = true, because
input_cmd forwards only actions, sleep_time, duration and
doubleclick_interval to mouse_cmd (line 597). -/
theorem input_image_query_uses_default_confidence :
    (inputRun ⟨0, 0, 0, 0, false, 0, 0⟩
        ⟨(0, 0), fun _ => some (5, 6), fun _ => none⟩
        [InputItem.mouse [("MOVE", MouseArgs.image "img.png")]]).1
      = [Event.locate "img.png" DEFAULT_CONFIDENCE DEFAULT_GRAYSCALE, Event.moveTo 5 6]
  ∧ DEFAULT_CONFIDENCE = 4/5 ∧ DEFAULT_GRAYSCALE = true :=
  ⟨rfl, rfl, rfl⟩

/-- Claim C4: Evaluation of the one-field mouse parser at the failing input: the
uppercase keyword L parses as a click on the current position, but the
lowercase form l fails the case-sensitive membership test of line 352 and
is treated as an image file path, aborting with a file-path error. -/
theorem lowercase_click_keyword_goes_to_file_branch :
    parseMouseItemCore (fun _ => false) none "L" = .ok ("LEFT", MouseArgs.empty)
  ∧ parseMouseItemCore (fun _ => false) none "l"
      = .error ("File l does not exist.") :=
  ⟨rfl, rfl⟩

/-- Claim C7: Evaluation of the keyboard parser at the failing inputs: a bare
token with no comma (K or T) raises an IndexError that escapes the
except ValueError clause, so the process dies with a traceback instead of
the logged format error naming the token; an invalid keyword with a
comma (X,1) takes the intended path and is reported as a format error
naming the token. -/
theorem bare_keyboard_token_uncaught_index_error :
    parseKeyboardItem (fun _ => false) none "K" = .error (ParseErr.indexError "K")
  ∧ parseKeyboardItem (fun _ => false) none "T" = .error (ParseErr.indexError "T")
  ∧ parseKeyboardItem (fun _ => false) none "X,1"
      = .error (ParseErr.formatError "X,1"
          ("Invalid action X. Use " ++ KEYBOARD_ACTIONS_STR ++ ".")) :=
  ⟨rfl, rfl, rfl⟩

/-- Claim C5 counterexample: the tokens K,enter,0 and K,enter,-2 are accepted at
parse time with presses 0 and -2; a zero or negative presses value is not
rejected (line 418 converts with int() and performs no positivity
check). -/
theorem key_presses_zero_and_negative_accepted :
    parseKeyboardItem (fun _ => false) none "K,enter,0"
      = .ok ("KEY", KeyArgs.key ["enter"] 0)
  ∧ parseKeyboardItem (fun _ => false) none "K,enter,-2"
      = .ok ("KEY", KeyArgs.key ["enter"] (-2)) :=
  ⟨rfl, rfl⟩

/-- Claim C6 counterexample: executing the chord ctrl+s with presses = 2 and a
press interval of 1 second sleeps after every repeat, so the trace ends
with an inter-press sleep — a delay after the final repeat (the loop of
lines 553-556 sleeps inside the loop body, after each hotkey call). -/
theorem chord_sleeps_after_final_repeat :
    (keyboardActionEvents ⟨0, 1/20, 1⟩ ⟨(0, 0), fun _ => none, fun _ => none⟩
        ("KEY", KeyArgs.key ["ctrl", "s"] 2)).1
      = [Event.hotkey ["ctrl", "s"], Event.pressSleep 1,
         Event.hotkey ["ctrl", "s"], Event.pressSleep 1]
  ∧ (keyboardActionEvents ⟨0, 1/20, 1⟩ ⟨(0, 0), fun _ => none, fun _ => none⟩
        ("KEY", KeyArgs.key ["ctrl", "s"] 2)).1.getLast? = some (Event.pressSleep 1) :=
  ⟨rfl, rfl⟩

/-- Claim C8 counterexample: a mouse-classified input token containing a space
(the shlex token a b, with files a and b present) is re-split on
whitespace by the delegated mouse parser and yields two actions, not
one. -/
theorem input_mouse_token_with_space_is_resplit :
    parseInputItem (fun s => s == "a" || s == "b") (fun _ => false) none none "a b"
      = .ok (InputItem.mouse [("MOVE", MouseArgs.image "a"), ("MOVE", MouseArgs.image "b")])
  ∧ [("MOVE", MouseArgs.image "a"), ("MOVE", MouseArgs.image "b")].length ≠ 1 :=
  ⟨rfl, by decide⟩

/-- Claim C6 amended: executing a KeyPress whose key list is a chord of more
than one key with presses repeats issues the full chord presses times
and, when the configured inter-press delay is positive, sleeps that delay
after every repeat — including the final one. -/
theorem chord_repeat_delay_after_each
    (cfg : KeyboardConfig) (env : Env) (keys : List String) (presses : Int)
    (h1 : 2 ≤ keys.length) (h2 : 0 < cfg.press_interval) :
    (keyboardActionEvents cfg env ("KEY", KeyArgs.key keys presses)).1
      = (List.replicate presses.toNat
          [Event.hotkey keys, Event.pressSleep cfg.press_interval]).flatten := by
  have hne : ¬ keys.length = 1 := by omega
  simp [keyboardActionEvents, hne, chordEvents, h2]

/-- Witness for chord_repeat_delay_after_each: the chord ctrl+c pressed
3 times with a press interval of 1 second. -/
theorem chord_repeat_delay_after_each_witness :
    (keyboardActionEvents ⟨0, 0, 1⟩ ⟨(0, 0), fun _ => none, fun _ => none⟩
        ("KEY", KeyArgs.key ["ctrl", "c"] 3)).1
      = (List.replicate (3 : Int).toNat
          [Event.hotkey ["ctrl", "c"], Event.pressSleep 1]).flatten :=
  chord_repeat_delay_after_each ⟨0, 0, 1⟩ ⟨(0, 0), fun _ => none, fun _ => none⟩
    ["ctrl", "c"] 3 (by decide) (by decide)

/-- Claim C10: Every combined-input token whose field before the first comma
uppercases to S or SLEEP is classified into the mouse domain (the mouse
keyword list is tested first at line 453, and both sleep keywords belong
to it), so such a token is delegated to the mouse parser and never parsed
as a keyboard action. -/
theorem sleep_token_classified_as_mouse
    (imgFs fileFs : String → Bool) (imgDir fileDir : Option String) (item : String)
    (h : pyUpper (pySplitFirst item).1 = "S" ∨ pyUpper (pySplitFirst item).1 = "SLEEP") :
    parseInputItem imgFs fileFs imgDir fileDir item
      = (parse_mouse_actions imgFs imgDir item).map InputItem.mouse
  ∧ ∀ acts, parseInputItem imgFs fileFs imgDir fileDir item
      ≠ .ok (InputItem.keyboard acts) := by
  have hmem : pyUpper (pySplitFirst item).1 ∈ MOUSE_ACTIONS_LIST := by
    rcases h with h | h <;> rw [h] <;> decide
  have heq : parseInputItem imgFs fileFs imgDir fileDir item
      = (parse_mouse_actions imgFs imgDir item).map InputItem.mouse := by
    simp [parseInputItem, hmem]
  refine ⟨heq, ?_⟩
  intro acts hacts
  rw [heq] at hacts
  cases hp : parse_mouse_actions imgFs imgDir item <;>
    rw [hp] at hacts <;> simp [Except.map] at hacts

/-- Witness for sleep_token_classified_as_mouse: the token S,2.5 goes to
the mouse parser and is not a keyboard action. -/
theorem sleep_token_classified_as_mouse_witness :
    parseInputItem (fun _ => false) (fun _ => false) none none "S,2.5"
      = (parse_mouse_actions (fun _ => false) none "S,2.5").map InputItem.mouse
  ∧ parseInputItem (fun _ => false) (fun _ => false) none none "S,2.5"
      ≠ .ok (InputItem.keyboard []) :=
  ⟨(sleep_token_classified_as_mouse (fun _ => false) (fun _ => false) none none
      "S,2.5" (Or.inl (by decide))).1,
   (sleep_token_classified_as_mouse (fun _ => false) (fun _ => false) none none
      "S,2.5" (Or.inl (by decide))).2 []⟩

theorem splitOnCharL_no_sep (sep : Char) (l : List Char) (h : sep ∉ l) :
    splitOnCharL sep l = [l] := by
  induction l with
  | nil => rfl
  | cons c rest ih =>
    rw [List.mem_cons, not_or] at h
    have h1 : ¬ c = sep := fun hh => h.1 hh.symm
    simp only [splitOnCharL, ih h.2, h1, if_false]

theorem splitOnCharL_append_sep (sep : Char) (l1 l2 : List Char) (h : sep ∉ l1) :
    splitOnCharL sep (l1 ++ sep :: l2) = l1 :: splitOnCharL sep l2 := by
  induction l1 with
  | nil => simp [splitOnCharL]
  | cons c rest ih =>
    rw [List.mem_cons, not_or] at h
    have h1 : ¬ c = sep := fun hh => h.1 hh.symm
    simp only [List.cons_append, splitOnCharL, List.append_eq, ih h.2, h1, if_false]

theorem pySplitComma_no_comma (s : String) (h : ',' ∉ s.data) :
    pySplitComma s = [s] := by
  simp only [pySplitComma, splitOnCharL_no_sep ',' s.data h, List.map_cons,
    List.map_nil, strMk_data]

theorem pySplitComma_two_fields (a b : String) (ha : ',' ∉ a.data) (hb : ',' ∉ b.data) :
    pySplitComma (String.mk (a.data ++ ',' :: b.data)) = [a, b] := by
  simp only [pySplitComma, splitOnCharL_append_sep ',' a.data b.data ha,
    splitOnCharL_no_sep ',' b.data hb, List.map_cons, List.map_nil, strMk_data]

/-- Claim C5 amended: a keyboard token K,combo (or KEY,combo) with no presses
field parses with presses defaulting to 1; a token K,combo,presses parses
successfully with the presses value whenever int() accepts it — zero and
negative integers included — and is rejected with a format error naming
the token exactly when int() fails. -/
theorem key_presses_parse_rule
    (fs : String → Bool) (dir : Option String) (combo pstr : String)
    (hc : ',' ∉ combo.data) (hp : ',' ∉ pstr.data) :
    parseKeyboardItem fs dir (String.mk ('K' :: ',' :: combo.data))
      = .ok ("KEY", KeyArgs.key (pySplitPlus (pyLower combo)) 1)
  ∧ parseKeyboardItem fs dir (String.mk ('K' :: 'E' :: 'Y' :: ',' :: combo.data))
      = .ok ("KEY", KeyArgs.key (pySplitPlus (pyLower combo)) 1)
  ∧ parseKeyboardItem fs dir (String.mk ('K' :: ',' :: (combo.data ++ ',' :: pstr.data)))
      = (match pyParseInt? pstr with
          | some nv => .ok ("KEY", KeyArgs.key (pySplitPlus (pyLower combo)) nv)
          | none => .error (ParseErr.formatError
              (String.mk ('K' :: ',' :: (combo.data ++ ',' :: pstr.data)))
              ("invalid literal for int() with base 10: " ++ pstr))) := by
  refine ⟨?_, ?_, ?_⟩
  · show (parseKbCore fs dir "K" combo).mapError
      (ParseErr.formatError (String.mk ('K' :: ',' :: combo.data))) = _
    simp only [parseKbCore, pySplitComma_no_comma combo hc]
    rfl
  · show (parseKbCore fs dir "KEY" combo).mapError
      (ParseErr.formatError (String.mk ('K' :: 'E' :: 'Y' :: ',' :: combo.data))) = _
    simp only [parseKbCore, pySplitComma_no_comma combo hc]
    rfl
  · show (parseKbCore fs dir "K" (String.mk (combo.data ++ ',' :: pstr.data))).mapError
      (ParseErr.formatError
        (String.mk ('K' :: ',' :: (combo.data ++ ',' :: pstr.data)))) = _
    simp only [parseKbCore, pySplitComma_two_fields combo pstr hc hp]
    cases hn : pyParseInt? pstr <;> simp [hn] <;> rfl

/-- Witness for key_presses_parse_rule: the combo ctrl+s with presses
field 3. -/
theorem key_presses_parse_rule_witness :
    parseKeyboardItem (fun _ => false) none (String.mk ('K' :: ',' :: "ctrl+s".data))
      = .ok ("KEY", KeyArgs.key (pySplitPlus (pyLower "ctrl+s")) 1)
  ∧ parseKeyboardItem (fun _ => false) none
      (String.mk ('K' :: 'E' :: 'Y' :: ',' :: "ctrl+s".data))
      = .ok ("KEY", KeyArgs.key (pySplitPlus (pyLower "ctrl+s")) 1)
  ∧ parseKeyboardItem (fun _ => false) none
      (String.mk ('K' :: ',' :: ("ctrl+s".data ++ ',' :: "3".data)))
      = (match pyParseInt? "3" with
          | some nv => .ok ("KEY", KeyArgs.key (pySplitPlus (pyLower "ctrl+s")) nv)
          | none => .error (ParseErr.formatError
              (String.mk ('K' :: ',' :: ("ctrl+s".data ++ ',' :: "3".data)))
              ("invalid literal for int() with base 10: " ++ "3"))) :=
  key_presses_parse_rule (fun _ => false) none "ctrl+s" "3" (by decide) (by decide)

theorem exceptMapM_ok_length (f : α → Except ε β) (l : List α) (out : List β)
    (h : exceptMapM f l = .ok out) : out.length = l.length := by
  induction l generalizing out with
  | nil =>
    simp only [exceptMapM] at h
    cases h
    rfl
  | cons a rest ih =>
    simp only [exceptMapM, bind, Except.bind] at h
    cases hf : f a with
    | error e => rw [hf] at h; simp at h
    | ok b =>
      rw [hf] at h
      cases hr : exceptMapM f rest with
      | error e => rw [hr] at h; simp at h
      | ok bs =>
        rw [hr] at h
        simp only [Except.ok.injEq] at h
        subst h
        simp [ih bs hr]

/-- Claim C8 amended: a combined-input token classified into the keyboard
domain is delegated atomically (from_input framing): it always parses to
exactly one keyboard action, even when the token contains spaces. A token
classified into the mouse domain is delegated to parse_mouse_actions,
which has no such framing and re-splits the token on whitespace, so it
parses to one action per whitespace-separated field rather than to a
single action. -/
theorem input_delegation_framing
    (imgFs fileFs : String → Bool) (imgDir fileDir : Option String)
    (itemK itemM : String)
    (hk1 : (pySplitFirst itemK).2 ≠ none)
    (hk2 : pyUpper (pySplitFirst itemK).1 ∉ MOUSE_ACTIONS_LIST)
    (hk3 : pyUpper (pySplitFirst itemK).1 ∈ KEYBOARD_ACTIONS_LIST)
    (hm : (pySplitFirst itemM).2 = none
      ∨ pyUpper (pySplitFirst itemM).1 ∈ MOUSE_ACTIONS_LIST) :
    parseInputItem imgFs fileFs imgDir fileDir itemK
      = (parseKeyboardItem fileFs fileDir itemK).map (fun a => InputItem.keyboard [a])
  ∧ (∀ acts, parseInputItem imgFs fileFs imgDir fileDir itemK
      = .ok (InputItem.keyboard acts) → acts.length = 1)
  ∧ parseInputItem imgFs fileFs imgDir fileDir itemM
      = (parse_mouse_actions imgFs imgDir itemM).map InputItem.mouse
  ∧ (∀ acts, parseInputItem imgFs fileFs imgDir fileDir itemM
      = .ok (InputItem.mouse acts) → acts.length = (pySplitWs itemM).length) := by
  have heqK : parseInputItem imgFs fileFs imgDir fileDir itemK
      = (parseKeyboardItem fileFs fileDir itemK).map (fun a => InputItem.keyboard [a]) := by
    simp [parseInputItem, hk1, hk2, hk3]
  have heqM : parseInputItem imgFs fileFs imgDir fileDir itemM
      = (parse_mouse_actions imgFs imgDir itemM).map InputItem.mouse := by
    rcases hm with h | h <;> simp [parseInputItem, h]
  refine ⟨heqK, ?_, heqM, ?_⟩
  · intro acts hacts
    rw [heqK] at hacts
    cases hp : parseKeyboardItem fileFs fileDir itemK <;>
      rw [hp] at hacts <;> simp [Except.map] at hacts
    rw [← hacts]
    rfl
  · intro acts hacts
    rw [heqM] at hacts
    cases hp : parse_mouse_actions imgFs imgDir itemM with
    | error e => rw [hp] at hacts; simp [Except.map] at hacts
    | ok l =>
      rw [hp] at hacts
      simp only [Except.map, Except.ok.injEq, InputItem.mouse.injEq] at hacts
      subst hacts
      exact exceptMapM_ok_length _ _ _ hp

/-- Witness for input_delegation_framing: the keyboard token
T,hello world (a shlex token containing a space) parses to exactly one
action; the mouse token a b (files a and b present) parses to one action
per whitespace field, here two. -/
theorem input_delegation_framing_witness :
    parseInputItem (fun s => s == "a" || s == "b") (fun _ => false) none none
        "T,hello world"
      = (parseKeyboardItem (fun _ => false) none "T,hello world").map
          (fun a => InputItem.keyboard [a])
  ∧ [("TYPE", KeyArgs.text "hello world")].length = 1
  ∧ parseInputItem (fun s => s == "a" || s == "b") (fun _ => false) none none "a b"
      = (parse_mouse_actions (fun s => s == "a" || s == "b") none "a b").map
          InputItem.mouse
  ∧ [("MOVE", MouseArgs.image "a"), ("MOVE", MouseArgs.image "b")].length
      = (pySplitWs "a b").length := by
  have h := input_delegation_framing (fun s => s == "a" || s == "b")
    (fun _ => false) none none "T,hello world" "a b"
    (by decide) (by decide) (by decide) (Or.inl (by decide))
  exact ⟨h.1, h.2.1 [("TYPE", KeyArgs.text "hello world")] (by rfl),
    h.2.2.1, h.2.2.2 [("MOVE", MouseArgs.image "a"), ("MOVE", MouseArgs.image "b")] (by rfl)⟩
